import Mathlib

/-!
Shallow embedding of `backend.py` from Project-Samarth.

The two query functions `compare_average_rainfall` and `top_crops_in_state`
operate on pandas DataFrames loaded from CSV.  We model a loaded DataFrame as
a `Table`: a list of column names plus rows, each row a list of `Cell`s
aligned with the columns.  After the loaders (`get_rainfall_data`,
`get_crop_data`) run `pd.to_numeric(..., errors='coerce')` on the relevant
columns, a cell is either a (finite) number, a string (only in columns the
loader skipped, i.e. state-like columns), or missing (NaN).  Machine floats
are modelled as exact rationals; Python's `round(x, 2)` is modelled as exact
rational rounding to two decimals (they agree except at exact half-cent ties,
which no theorem below touches).
-/

attribute [local semireducible] Rat.add Rat.mul Rat.inv Rat.sub

namespace Samarth

/-- One cell of a loaded DataFrame: a number, a string, or missing (NaN). -/
inductive Cell where
  | num (q : ℚ)
  | str (s : String)
  | na
deriving DecidableEq, Repr

/-- Numeric view of a cell; `none` mirrors pandas `NaN` (dropped by `dropna`). -/
def Cell.toNum : Cell → Option ℚ
  | .num q => some q
  | _ => none

/-- A loaded DataFrame: column names plus rows of cells aligned with the columns. -/
structure Table where
  cols : List String
  rows : List (List Cell)
deriving DecidableEq, Repr

/-- pandas `df.empty`: true when either axis has length zero. -/
def Table.isEmpty (t : Table) : Bool := t.rows.isEmpty || t.cols.isEmpty

/-- Cell of a row at column index `i` (`df[col].iloc[...]`); out of range is NaN. -/
def cellAt (row : List Cell) (i : ℕ) : Cell := row.getD i .na

/-- The column of cells `df[col]` at column index `i`. -/
def colCells (t : Table) (i : ℕ) : List Cell := t.rows.map (fun r => cellAt r i)

/-- Python `s.lower()` followed by `s.strip()` as used on both sides of the
state comparison; we work on character lists for kernel-friendly evaluation. -/
def trimChars (cs : List Char) : List Char :=
  ((cs.dropWhile Char.isWhitespace).reverse.dropWhile Char.isWhitespace).reverse

/-- Python `s.lower().strip()`. -/
def lowerTrim (s : String) : List Char :=
  trimChars (s.toList.map Char.toLower)

/-- Python substring test `pat in s` on character lists. -/
def infixOf (pat : List Char) : List Char → Bool
  | [] => pat.isEmpty
  | c :: rest => pat.isPrefixOf (c :: rest) || infixOf pat rest

/-- Python `pat in c.lower()`: substring test on the lower-cased column name. -/
def lowerHas (c : String) (pat : String) : Bool :=
  infixOf pat.toList (c.toList.map Char.toLower)

/-- Rainfall query: `next((c for c in df.columns if 'state' in c.lower()), None)`,
as the index of the first matching column. -/
def findStateColR (cols : List String) : Option ℕ :=
  cols.findIdx? (fun c => lowerHas c "state")

/-- Rainfall query: first column whose lower-cased name contains "year". -/
def findYearCol (cols : List String) : Option ℕ :=
  cols.findIdx? (fun c => lowerHas c "year")

/-- Rainfall query: first column whose lower-cased name contains "rain" or "annual". -/
def findRainCol (cols : List String) : Option ℕ :=
  cols.findIdx? (fun c => lowerHas c "rain" || lowerHas c "annual")

/-- Crop query: first column whose lower-cased name contains "state" or "name". -/
def findCropStateCol (cols : List String) : Option ℕ :=
  cols.findIdx? (fun c => lowerHas c "state" || lowerHas c "name")

/-- Helper for `uniqueFirst`: keep the cells not seen before. -/
def uniqueFirstAux (seen : List Cell) : List Cell → List Cell
  | [] => []
  | c :: rest =>
    if seen.contains c then uniqueFirstAux seen rest
    else c :: uniqueFirstAux (c :: seen) rest

/-- pandas `Series.unique()`: distinct values in order of first occurrence. -/
def uniqueFirst (l : List Cell) : List Cell := uniqueFirstAux [] l

/-- Python `sorted(valid_years.unique())`: the ascending list of distinct year
values.  pandas `unique` keeps first occurrences, but the subsequent ascending
sort makes that order immaterial, so we sort `dedup`. -/
def sortedUnique (ys : List ℚ) : List ℚ :=
  (ys.dedup).insertionSort (· ≤ ·)

/-- Python slice `l[-n:]` (for `n = 0` Python yields the whole list). -/
def lastN (n : ℕ) (l : List ℚ) : List ℚ :=
  if n = 0 then l else l.drop (l.length - n)

/-- The recency selection `sorted(valid_years.unique())[-last_n_years:]`. -/
def recentYears (ys : List ℚ) (n : ℕ) : List ℚ :=
  lastN n (sortedUnique ys)

/-- The row filter `df[state_col].str.lower().str.strip() == q.lower().strip()`
on one cell of an object-dtype state column: for a non-string cell pandas'
`.str` accessor yields NaN and the comparison is False.  When the whole state
column is numeric dtype the accessor raises instead of filtering; that raise
path is modelled in `compareAverageRainfallPy` and `topCropsInStatePy`. -/
def stateMatches (c : Cell) (q : String) : Bool :=
  match c with
  | .str s => lowerTrim s == lowerTrim q
  | _ => false

/-- Membership of a year cell in the selected years, `df[year_col].isin(years)`;
a NaN year is never in the window. -/
def yearIn (c : Cell) (years : List ℚ) : Bool :=
  match c.toNum with
  | some y => years.contains y
  | none => false

/-- Row selection for one state in `compare_average_rainfall`:
state matches (case-insensitive, trimmed) and the year is among `years`. -/
def selectStateRows (t : Table) (si yi : ℕ) (q : String) (years : List ℚ) :
    List (List Cell) :=
  t.rows.filter (fun r => stateMatches (cellAt r si) q && yearIn (cellAt r yi) years)

/-- The numeric rainfall values of the selected rows (pandas `mean` skips NaN
on a numeric-dtype column).  On an object-dtype rainfall column — possible
when the column was matched via "annual" and never coerced by the loader —
`Series.mean()` raises instead; that raise path is modelled in
`compareAverageRainfallPy`. -/
def rainValues (rows : List (List Cell)) (ri : ℕ) : List ℚ :=
  rows.filterMap (fun r => (cellAt r ri).toNum)

/-- pandas `Series.mean()`: NaN (here `none`) on an empty series. -/
def ratMean (l : List ℚ) : Option ℚ :=
  if l.isEmpty then none else some (l.sum / (l.length : ℚ))

/-- Python `round(x, 2)` modelled as exact rounding to two decimal places. -/
def round2 (q : ℚ) : ℚ := ((round (100 * q) : ℤ) : ℚ) / 100

/-- Structured result of `compare_average_rainfall`: the code always returns a
dict; each constructor records one return site with its payload. -/
inductive RainResult where
  | errNoData
  | errMissingColumns (available : List String)
  | errNoYearData
  | errStateNotFound (state : String) (sample : List Cell)
  | ok (stateX stateY : String) (avgX avgY : Option ℚ) (years : List ℚ)
deriving DecidableEq, Repr

/-- The `error` field of the returned dict, with the literal message strings of
the code; `none` exactly on the successful return. -/
def RainResult.errText : RainResult → Option String
  | .errNoData => some "No rainfall data available"
  | .errMissingColumns _ => some "Required columns not found in dataset"
  | .errNoYearData => some "No valid year data found"
  | .errStateNotFound s _ => some ("No data found for state: " ++ s)
  | .ok _ _ _ _ _ => none

/-- True exactly on the successful (non-error) result. -/
def RainResult.isOk : RainResult → Bool
  | .ok _ _ _ _ _ => true
  | _ => false

/-- Embedding of `compare_average_rainfall(state_x, state_y, last_n_years)`,
taking the loaded rainfall table as an explicit argument. -/
def compareAverageRainfall (t : Table) (sx sy : String) (n : ℕ) : RainResult :=
  if t.isEmpty then .errNoData else
  match findStateColR t.cols, findYearCol t.cols, findRainCol t.cols with
  | some si, some yi, some ri =>
    let validYears := (colCells t yi).filterMap Cell.toNum
    if validYears.isEmpty then .errNoYearData else
    let years := recentYears validYears n
    let rowsX := selectStateRows t si yi sx years
    let rowsY := selectStateRows t si yi sy years
    if rowsX.isEmpty then
      .errStateNotFound sx ((uniqueFirst (colCells t si)).take 30)
    else if rowsY.isEmpty then
      .errStateNotFound sy ((uniqueFirst (colCells t si)).take 30)
    else
      .ok sx sy ((ratMean (rainValues rowsX ri)).map round2)
        ((ratMean (rainValues rowsY ri)).map round2) years
  | _, _, _ => .errMissingColumns t.cols

/-- Python `s.split('-')` on character lists. -/
def splitOnChar (sep : Char) : List Char → List (List Char)
  | [] => [[]]
  | c :: rest =>
    let r := splitOnChar sep rest
    if c = sep then [] :: r
    else
      match r with
      | [] => [[c]]
      | h :: t2 => (c :: h) :: t2

/-- Value of a (4-digit, all-digit) token, Python `int(part)`. -/
def digitsVal (cs : List Char) : ℕ :=
  cs.foldl (fun a c => 10 * a + (c.toNat - 48)) 0

/-- The year extraction of `top_crops_in_state`: if the column name contains a
dash, split on dashes and take the first part that is exactly four digit
characters as the year (the loop breaks on the first hit). -/
def yearOf (col : String) : Option ℕ :=
  let cs := col.toList
  if cs.contains '-' then
    (splitOnChar '-' cs).findSome? (fun part =>
      if part.length = 4 && part.all Char.isDigit then some (digitsVal part)
      else none)
  else none

/-- Python `s.split(pat)[0]` for nonempty `pat`: the text before the first
occurrence of `pat` (the whole string when `pat` does not occur). -/
def takeBefore (pat : List Char) : List Char → List Char
  | [] => []
  | c :: rest =>
    if pat.isPrefixOf (c :: rest) then []
    else c :: takeBefore pat rest

/-- Helper for `removeAll`: while `skip` is positive the current character is
part of an occurrence already matched and is dropped. -/
def removeAllAux (pat : List Char) : ℕ → List Char → List Char
  | _, [] => []
  | k + 1, _ :: rest => removeAllAux pat k rest
  | 0, c :: rest =>
    if !pat.isEmpty && pat.isPrefixOf (c :: rest) then
      removeAllAux pat (pat.length - 1) rest
    else c :: removeAllAux pat 0 rest

/-- Python `s.replace(pat, '')` for nonempty `pat`: remove every
(left-to-right, non-overlapping) occurrence of `pat`. -/
def removeAll (pat : List Char) (cs : List Char) : List Char :=
  removeAllAux pat 0 cs

/-- The unit-suffix cleanup of `top_crops_in_state`: cut the column name at
the first of "-(Production", "-(Th. tonnes)" or "-(000", in that order. -/
def stripUnit (cs : List Char) : List Char :=
  if infixOf "-(Production".toList cs then takeBefore "-(Production".toList cs
  else if infixOf "-(Th. tonnes)".toList cs then takeBefore "-(Th. tonnes)".toList cs
  else if infixOf "-(000".toList cs then takeBefore "-(000".toList cs
  else cs

/-- Shape test for a trailing "-dddd" (dash plus four digits). -/
def isDashYear4 : List Char → Bool
  | ['-', a, b, c, d] => a.isDigit && b.isDigit && c.isDigit && d.isDigit
  | _ => false

/-- Shape test for a trailing "-dddd-dd". -/
def isDashYear4Dash2 : List Char → Bool
  | ['-', a, b, c, d, '-', e, f] =>
    a.isDigit && b.isDigit && c.isDigit && d.isDigit && e.isDigit && f.isDigit
  | _ => false

/-- The regex substitution `re.sub(r'-\d{4}(-\d{2})?$', '', s)`: remove a
trailing "-dddd-dd" (the leftmost match, so the longer form wins) or else a
trailing "-dddd". -/
def stripYearSuffix (cs : List Char) : List Char :=
  let n := cs.length
  if isDashYear4Dash2 (cs.drop (n - 8)) then cs.take (n - 8)
  else if isDashYear4 (cs.drop (n - 5)) then cs.take (n - 5)
  else cs

/-- The category-prefix cleanup: remove all occurrences of the first matching
category marker, in the elif order of the code. -/
def cleanCategory (cs : List Char) : List Char :=
  if infixOf "Food grains (cereals)-".toList cs then
    removeAll "Food grains (cereals)-".toList cs
  else if infixOf "Food grains(pulses)-".toList cs then
    removeAll "Food grains(pulses)-".toList cs
  else if infixOf "Oilseeds-".toList cs then
    removeAll "Oilseeds-".toList cs
  else cs

/-- Python `s.strip('-')`: drop dashes from both ends. -/
def stripEdgeDashes (cs : List Char) : List Char :=
  ((cs.dropWhile (fun c => c = '-')).reverse.dropWhile (fun c => c = '-')).reverse

/-- The crop-label derivation of `top_crops_in_state` for a column name whose
year parse result is `ym`: strip the unit suffix, strip the trailing year
(only when the parsed year is truthy — Python's `if year_match:` is falsy
both for `None` and for a parsed year 0), strip the category marker, then
`strip('-')` and `strip()`. -/
def cropNameOf (col : String) (ym : Option ℕ) : String :=
  let c1 := stripUnit col.toList
  let c2 := if ym.getD 0 ≠ 0 then stripYearSuffix c1 else c1
  let c3 := cleanCategory c2
  (trimChars (stripEdgeDashes c3)).asString

/-- The skip test `if not crop_name or crop_name.lower() in [...]`. -/
def isSkippedName (name : String) : Bool :=
  name == "" ||
    (["state", "name", "total", "all-india", "all india"]).contains
      (name.toList.map Char.toLower).asString

/-- The recency filter of `top_crops_in_state`.  Note the anchor is the
hardcoded `max_year = 2015`, not the most recent year present in the data.
Python `if year_match and last_n_years` is false when either is 0 or the
year is absent, in which case no window is applied. -/
def excludedByWindow (ym : Option ℕ) (n : ℕ) : Bool :=
  match ym with
  | some y => y != 0 && n != 0 && decide ((y : ℤ) < 2015 - (n : ℤ) + 1)
  | none => false

/-- Accumulation `crop_totals[crop_name] += value` on an insertion-ordered
association list (Python dicts preserve insertion order). -/
def addTo : List (String × ℚ) → String → ℚ → List (String × ℚ)
  | [], k, v => [(k, v)]
  | (k2, v2) :: rest, k, v =>
    if k2 = k then (k2, v2 + v) :: rest
    else (k2, v2) :: addTo rest k v

/-- One iteration of the column loop of `top_crops_in_state` over the pair
(column index, column name).  String cells are skipped: the code filters the
markers 'NA' and '#' explicitly, and on any other string (post-loader, value
columns are numeric) `float(value)` raises and the `except` clause skips the
column. -/
def cropStep (si : ℕ) (n : ℕ) (row : List Cell) (acc : List (String × ℚ))
    (ic : ℕ × String) : List (String × ℚ) :=
  if ic.1 = si then acc else
  let ym := yearOf ic.2
  let name := cropNameOf ic.2 ym
  if isSkippedName name then acc
  else if excludedByWindow ym n then acc
  else
    match cellAt row ic.1 with
    | .num v => if 0 < v then addTo acc name v else acc
    | _ => acc

/-- The accumulated `crop_totals` for the first matching row. -/
def cropTotals (t : Table) (si : ℕ) (row : List Cell) (n : ℕ) :
    List (String × ℚ) :=
  t.cols.enum.foldl (fun acc ic => cropStep si n row acc ic) []

/-- Python `sorted(crop_totals.items(), key=lambda x: x[1], reverse=True)`:
stable sort by total, descending.  Inserting from the right before the first
element with a smaller-or-equal total reproduces the stable descending order. -/
def sortByTotalDesc (l : List (String × ℚ)) : List (String × ℚ) :=
  l.insertionSort (fun a b => b.2 ≤ a.2)

/-- The row filter `df[df[state_col].str.lower().str.strip() == state.lower().strip()]`. -/
def matchingRows (t : Table) (si : ℕ) (q : String) : List (List Cell) :=
  t.rows.filter (fun r => stateMatches (cellAt r si) q)

/-- Structured result of `top_crops_in_state`; each constructor records one
return site of the code with its payload. -/
inductive CropResult where
  | errNoData
  | errNoStateColumn (available : List String)
  | errStateNotFound (state : String) (sample : List Cell)
  | errNoValidProduction (state : String)
  | ok (state : String) (lastYears : ℕ) (topCrops : List (String × ℚ))
deriving DecidableEq, Repr

/-- The `error` field of the returned dict, with the literal message strings
of the code; `none` exactly on the successful return. -/
def CropResult.errText : CropResult → Option String
  | .errNoData => some "No crop production data available"
  | .errNoStateColumn _ => some "State column not found in dataset"
  | .errStateNotFound s _ => some ("No data found for state: " ++ s)
  | .errNoValidProduction s => some ("No valid crop production data found for " ++ s)
  | .ok _ _ _ => none

/-- True exactly on the successful (non-error) result. -/
def CropResult.isOk : CropResult → Bool
  | .ok _ _ _ => true
  | _ => false

/-- Embedding of `top_crops_in_state(state, top_m, last_n_years)`, taking the
loaded crop table as an explicit argument.  Note `available` in the
missing-column error is truncated to the first 20 columns, the state sample
to the first 30 states, and only the first matching row is aggregated. -/
def topCropsInState (t : Table) (state : String) (m : ℕ) (n : ℕ) : CropResult :=
  if t.isEmpty then .errNoData else
  match findCropStateCol t.cols with
  | none => .errNoStateColumn (t.cols.take 20)
  | some si =>
    match matchingRows t si state with
    | [] => .errStateNotFound state ((uniqueFirst (colCells t si)).take 30)
    | row0 :: _ =>
      let totals := cropTotals t si row0 n
      if totals.isEmpty then .errNoValidProduction state
      else
        .ok state n
          (((sortByTotalDesc totals).take m).map (fun p => (p.1, round2 p.2)))

/-- pandas dtype of a loaded column in this model: a column holding at least
one string cell is object dtype; a column of only numbers and NaN was
inferred (or coerced) numeric. -/
def Cell.isStr : Cell → Bool
  | .str _ => true
  | _ => false

/-- True when the column is object dtype (contains a string cell). -/
def isObjectDtype (cells : List Cell) : Bool := cells.any Cell.isStr

deriving instance DecidableEq for Except

/-- Exception-aware embedding of `compare_average_rainfall`: identical to
`compareAverageRainfall` except that the two statements outside any
try/except that can raise are modelled as `Except.error` values, at the
control-flow points where they execute: `df[state_col].str.lower()` raises
AttributeError when the state column is numeric dtype (reached only after
the empty-table, missing-column and no-year-data returns), and
`df_x[rain_col].mean()` raises TypeError when the rainfall column is object
dtype, i.e. was matched via "annual" and never coerced by the loader
(reached only after both state filters produced rows). -/
def compareAverageRainfallPy (t : Table) (sx sy : String) (n : ℕ) :
    Except String RainResult :=
  if t.isEmpty then .ok .errNoData else
  match findStateColR t.cols, findYearCol t.cols, findRainCol t.cols with
  | some si, some yi, some ri =>
    let validYears := (colCells t yi).filterMap Cell.toNum
    if validYears.isEmpty then .ok .errNoYearData else
    let years := recentYears validYears n
    if !isObjectDtype (colCells t si) then .error "AttributeError" else
    let rowsX := selectStateRows t si yi sx years
    let rowsY := selectStateRows t si yi sy years
    if rowsX.isEmpty then
      .ok (.errStateNotFound sx ((uniqueFirst (colCells t si)).take 30))
    else if rowsY.isEmpty then
      .ok (.errStateNotFound sy ((uniqueFirst (colCells t si)).take 30))
    else if isObjectDtype (colCells t ri) then .error "TypeError"
    else
      .ok (.ok sx sy ((ratMean (rainValues rowsX ri)).map round2)
        ((ratMean (rainValues rowsY ri)).map round2) years)
  | _, _, _ => .ok (.errMissingColumns t.cols)

/-- Exception-aware embedding of `top_crops_in_state`: identical to
`topCropsInState` except that `df[state_col].str.lower()` is modelled as an
AttributeError when the resolved state column is numeric dtype (the loader
never coerces state/name-like columns, so a CSV state column of plain
numbers is read numeric).  The value loop itself sits in a try/except and
cannot raise. -/
def topCropsInStatePy (t : Table) (state : String) (m n : ℕ) :
    Except String CropResult :=
  if t.isEmpty then .ok .errNoData else
  match findCropStateCol t.cols with
  | none => .ok (.errNoStateColumn (t.cols.take 20))
  | some si =>
    if !isObjectDtype (colCells t si) then .error "AttributeError" else
    match matchingRows t si state with
    | [] => .ok (.errStateNotFound state ((uniqueFirst (colCells t si)).take 30))
    | row0 :: _ =>
      let totals := cropTotals t si row0 n
      if totals.isEmpty then .ok (.errNoValidProduction state)
      else
        .ok (.ok state n
          (((sortByTotalDesc totals).take m).map (fun p => (p.1, round2 p.2))))

/-! ### Concrete tables used by individual claims -/

/-- The crop table of the C1 scenario: one row for Punjab with
Wheat-2014-15 = 100, Rice-2014-15 = 50, Wheat-2013-14 = 80. -/
def tScenarioC1 : Table :=
  ⟨["State", "Wheat-2014-15", "Rice-2014-15", "Wheat-2013-14"],
   [[.str "Punjab", .num 100, .num 50, .num 80]]⟩

/-- Crop table whose only value column has no parseable year token. -/
def tNoYearColC2 : Table :=
  ⟨["State", "Wheat"], [[.str "Punjab", .num 100]]⟩

/-- The table of `tNoYearColC2` with the ambiguous-year column removed. -/
def tOnlyStateC2 : Table :=
  ⟨["State"], [[.str "Punjab"]]⟩

/-! ### Claim theorems -/

/-- C1 counterexample.  On the claimed scenario the code does NOT return the
top crop Wheat with total 100: because the recency window is anchored at the
hardcoded `max_year = 2015`, every 2014/2013 column falls outside the
one-year window and the call returns the no-valid-production error. -/
theorem topCrops_scenario_returns_error :
    topCropsInState tScenarioC1 "Punjab" 1 1 =
      CropResult.errNoValidProduction "Punjab" := by decide

/-- C1 (amended): the one-year window of `top_crops_in_state` is anchored at
the hardcoded year 2015, not at the most recent year present in the data.
Hence year 2014 is excluded and year 2015 kept for `last_n_years = 1`, the
scenario call fails with the no-valid-production error, and the scenario's
expected answer (Wheat with 100.00) is only obtained with `last_n_years = 2`. -/
theorem topCrops_window_anchored_at_2015 :
    excludedByWindow (some 2014) 1 = true ∧
    excludedByWindow (some 2015) 1 = false ∧
    topCropsInState tScenarioC1 "Punjab" 1 1 =
      CropResult.errNoValidProduction "Punjab" ∧
    topCropsInState tScenarioC1 "Punjab" 1 2 =
      CropResult.ok "Punjab" 2 [("Wheat", 100)] := by decide

/-- C2 counterexample.  A column whose name yields no parseable year token is
NOT excluded from the aggregation: with the single no-year column "Wheat"
present the query succeeds counting its value, while with that column removed
it fails with the no-valid-production error. -/
theorem topCrops_counts_column_without_year :
    topCropsInState tNoYearColC2 "Punjab" 1 1 =
      CropResult.ok "Punjab" 1 [("Wheat", 100)] ∧
    topCropsInState tOnlyStateC2 "Punjab" 1 1 =
      CropResult.errNoValidProduction "Punjab" := by decide

/-- C2 (amended): a column whose name yields no parseable year token bypasses
the recency window entirely — its contribution to the aggregation is the same
for every `last_n_years` value (it is included whenever its value is a
positive number, never excluded by the window). -/
theorem cropStep_no_year_ignores_window (si n n2 : ℕ) (row : List Cell)
    (acc : List (String × ℚ)) (ic : ℕ × String) (h : yearOf ic.2 = none) :
    cropStep si n row acc ic = cropStep si n2 row acc ic := by
  simp only [cropStep, h, excludedByWindow]

/-- Witness for `cropStep_no_year_ignores_window` at the no-year column
"Wheat": last_n_years 1 and 5 accumulate the same totals. -/
theorem cropStep_no_year_ignores_window_witness :
    yearOf "Wheat" = none ∧
    cropStep 0 1 [Cell.str "Punjab", Cell.num 100] [] (1, "Wheat") =
      cropStep 0 5 [Cell.str "Punjab", Cell.num 100] [] (1, "Wheat") :=
  ⟨by decide,
   cropStep_no_year_ignores_window 0 1 5 [Cell.str "Punjab", Cell.num 100] []
     (1, "Wheat") (by decide)⟩

/-- Rounding to two decimals is monotone. -/
theorem round2_mono {p q : ℚ} (h : p ≤ q) : round2 p ≤ round2 q := by
  unfold round2
  have h1 : round (100 * p) ≤ round (100 * q) := by
    rw [round_eq, round_eq]
    exact Int.floor_mono (by linarith)
  have h2 : ((round (100 * p) : ℤ) : ℚ) ≤ ((round (100 * q) : ℤ) : ℚ) := by
    exact_mod_cast h1
  linarith

/-- Rounding to two decimals sends nonnegative values to nonnegative values. -/
theorem round2_nonneg {q : ℚ} (h : 0 ≤ q) : 0 ≤ round2 q := by
  have h2 := round2_mono h
  simpa [round2] using h2

/-- Adding a positive value into the totals keeps every total positive. -/
theorem addTo_pos {k : String} {v : ℚ} (hv : 0 < v) :
    ∀ (acc : List (String × ℚ)), (∀ p ∈ acc, 0 < p.2) →
      ∀ p ∈ addTo acc k v, 0 < p.2 := by
  intro acc
  induction acc with
  | nil =>
    intro _ p hp
    simp only [addTo, List.mem_singleton] at hp
    subst hp
    exact hv
  | cons head tail ih =>
    intro ha p hp
    obtain ⟨k2, v2⟩ := head
    simp only [addTo] at hp
    split at hp
    · rcases List.mem_cons.mp hp with h | h
      · subst h
        have h2 : 0 < v2 := ha (k2, v2) (List.mem_cons_self _ _)
        simpa using add_pos h2 hv
      · exact ha p (List.mem_cons_of_mem _ h)
    · rcases List.mem_cons.mp hp with h | h
      · subst h
        exact ha (k2, v2) (List.mem_cons_self _ _)
      · exact ih (fun q hq => ha q (List.mem_cons_of_mem _ hq)) p h

/-- One column-loop step keeps every accumulated total positive. -/
theorem cropStep_pos (si n : ℕ) (row : List Cell) (acc : List (String × ℚ))
    (ic : ℕ × String) (ha : ∀ p ∈ acc, 0 < p.2) :
    ∀ p ∈ cropStep si n row acc ic, 0 < p.2 := by
  intro p hp
  simp only [cropStep] at hp
  split at hp
  · exact ha p hp
  · split at hp
    · exact ha p hp
    · split at hp
      · exact ha p hp
      · split at hp
        · split at hp
          · rename_i v hv
            exact addTo_pos hv acc ha p hp
          · exact ha p hp
        · exact ha p hp

/-- Every accumulated crop total is strictly positive: only strictly positive
cell values are ever added. -/
theorem cropTotals_pos (t : Table) (si : ℕ) (row : List Cell) (n : ℕ) :
    ∀ p ∈ cropTotals t si row n, 0 < p.2 := by
  unfold cropTotals
  have key : ∀ (l : List (ℕ × String)) (acc : List (String × ℚ)),
      (∀ p ∈ acc, 0 < p.2) →
      ∀ p ∈ l.foldl (fun acc ic => cropStep si n row acc ic) acc, 0 < p.2 := by
    intro l
    induction l with
    | nil => intro acc ha; simpa using ha
    | cons head tail ih =>
      intro acc ha
      simp only [List.foldl_cons]
      exact ih _ (cropStep_pos si n row acc head ha)
  exact key _ [] (by simp)

/-- Membership among the keys after an `addTo`. -/
theorem addTo_keys_mem (k : String) (v : ℚ) :
    ∀ (acc : List (String × ℚ)) (x : String),
      x ∈ (addTo acc k v).map Prod.fst ↔ x ∈ acc.map Prod.fst ∨ x = k := by
  intro acc
  induction acc with
  | nil => intro x; simp [addTo]
  | cons head tail ih =>
    intro x
    obtain ⟨k2, v2⟩ := head
    simp only [addTo]
    split
    · rename_i h
      subst h
      simp only [List.map_cons, List.mem_cons]
      tauto
    · simp only [List.map_cons, List.mem_cons, ih x]
      tauto

/-- An `addTo` keeps the crop labels distinct. -/
theorem addTo_keys_nodup (k : String) (v : ℚ) :
    ∀ (acc : List (String × ℚ)), (acc.map Prod.fst).Nodup →
      ((addTo acc k v).map Prod.fst).Nodup := by
  intro acc
  induction acc with
  | nil => intro _; simp [addTo]
  | cons head tail ih =>
    intro hn
    obtain ⟨k2, v2⟩ := head
    simp only [addTo]
    split
    · simpa using hn
    · rename_i h
      simp only [List.map_cons, List.nodup_cons] at hn ⊢
      refine ⟨?_, ih hn.2⟩
      intro hmem
      rcases (addTo_keys_mem k v tail k2).mp hmem with h2 | h2
      · exact hn.1 h2
      · exact h h2

/-- One column-loop step keeps the crop labels distinct. -/
theorem cropStep_keys_nodup (si n : ℕ) (row : List Cell)
    (acc : List (String × ℚ)) (ic : ℕ × String)
    (ha : (acc.map Prod.fst).Nodup) :
    ((cropStep si n row acc ic).map Prod.fst).Nodup := by
  simp only [cropStep]
  split
  · exact ha
  · split
    · exact ha
    · split
      · exact ha
      · split
        · split
          · exact addTo_keys_nodup _ _ acc ha
          · exact ha
        · exact ha

/-- The accumulated crop labels are distinct. -/
theorem cropTotals_keys_nodup (t : Table) (si : ℕ) (row : List Cell) (n : ℕ) :
    ((cropTotals t si row n).map Prod.fst).Nodup := by
  unfold cropTotals
  have key : ∀ (l : List (ℕ × String)) (acc : List (String × ℚ)),
      (acc.map Prod.fst).Nodup →
      ((l.foldl (fun acc ic => cropStep si n row acc ic) acc).map Prod.fst).Nodup := by
    intro l
    induction l with
    | nil => intro acc ha; simpa using ha
    | cons head tail ih =>
      intro acc ha
      simp only [List.foldl_cons]
      exact ih _ (cropStep_keys_nodup si n row acc head ha)
  exact key _ [] (by simp)

/-- The descending-by-total relation used by the final sort. -/
instance : IsTotal (String × ℚ) (fun a b => b.2 ≤ a.2) :=
  ⟨fun a b => le_total b.2 a.2⟩

/-- Transitivity of the descending-by-total relation. -/
instance : IsTrans (String × ℚ) (fun a b => b.2 ≤ a.2) :=
  ⟨fun _ _ _ h1 h2 => le_trans h2 h1⟩

/-- The final sort is non-increasing in the totals. -/
theorem sortByTotalDesc_sorted (l : List (String × ℚ)) :
    (sortByTotalDesc l).Sorted (fun a b => b.2 ≤ a.2) :=
  List.sorted_insertionSort _ l

/-- The final sort is a permutation of the totals. -/
theorem sortByTotalDesc_perm (l : List (String × ℚ)) :
    (sortByTotalDesc l).Perm l :=
  List.perm_insertionSort _ l

/-- C8: the crop column-name parser maps
"Food grains (cereals)-Rice-(Production)-2014-15" to the crop label "Rice"
and the year token 2014. -/
theorem cropColumn_parse_roundtrip :
    yearOf "Food grains (cereals)-Rice-(Production)-2014-15" = some 2014 ∧
    cropNameOf "Food grains (cereals)-Rice-(Production)-2014-15"
      (yearOf "Food grains (cereals)-Rice-(Production)-2014-15") = "Rice" := by
  decide

/-- Crop table for the C10 counterexample: a single positive value 1/1000. -/
def tTinyC10 : Table :=
  ⟨["State", "Wheat-2015-16"], [[.str "Punjab", .num (1/1000)]]⟩

/-- C10 counterexample.  A listed `total_production` need not be strictly
positive: the accumulated total 1/1000 is positive, but `round(x, 2)` turns
it into 0 in the successful result. -/
theorem topCrops_lists_zero_total :
    cropTotals tTinyC10 0 [Cell.str "Punjab", Cell.num (1/1000)] 1 =
      [("Wheat", 1/1000)] ∧
    topCropsInState tTinyC10 "Punjab" 1 1 =
      CropResult.ok "Punjab" 1 [("Wheat", 0)] := by decide

/-- C10 (amended): in every successful result of `top_crops_in_state` the
accumulated (pre-rounding) totals are strictly positive with distinct crop
labels, every listed (rounded) `total_production` is nonnegative (rounding to
two decimals may turn a tiny positive total into 0), the list is sorted in
non-increasing order of `total_production`, and its length is
`min top_m (number of distinct crop labels with a positive total)` —
requesting more crops than exist is not an error. -/
theorem topCrops_ok_invariants (t : Table) (s : String) (m n si : ℕ)
    (r0 : List Cell) (rs : List (List Cell)) (st : String) (n2 : ℕ)
    (lst : List (String × ℚ))
    (hsi : findCropStateCol t.cols = some si)
    (hm : matchingRows t si s = r0 :: rs)
    (hok : topCropsInState t s m n = CropResult.ok st n2 lst) :
    (∀ p ∈ cropTotals t si r0 n, 0 < p.2) ∧
    ((cropTotals t si r0 n).map Prod.fst).Nodup ∧
    (∀ p ∈ lst, 0 ≤ p.2) ∧
    lst.Sorted (fun a b => b.2 ≤ a.2) ∧
    lst.length = min m (cropTotals t si r0 n).length := by
  unfold topCropsInState at hok
  split at hok
  · exact absurd hok (by simp)
  split at hok
  · rename_i heq
    rw [hsi] at heq
    cases heq
  rename_i si2 heq
  rw [hsi] at heq
  injection heq with h3
  subst h3
  split at hok
  · rename_i heq2
    rw [hm] at heq2
    cases heq2
  rename_i row0 tail heq2
  rw [hm] at heq2
  obtain ⟨hrow, -⟩ : r0 = row0 ∧ rs = tail := by
    injection heq2 with h1 h2
    exact ⟨h1, h2⟩
  subst hrow
  simp only [] at hok
  split at hok
  · exact absurd hok (by simp)
  rw [CropResult.ok.injEq] at hok
  obtain ⟨-, -, hlst⟩ := hok
  subst hlst
  refine ⟨cropTotals_pos t si r0 n, cropTotals_keys_nodup t si r0 n, ?_, ?_, ?_⟩
  · intro p hp
    rw [List.mem_map] at hp
    obtain ⟨q, hq, hpq⟩ := hp
    have hq2 : q ∈ cropTotals t si r0 n :=
      (sortByTotalDesc_perm _).mem_iff.mp (List.take_subset _ _ hq)
    have hpos := cropTotals_pos t si r0 n q hq2
    subst hpq
    exact round2_nonneg (le_of_lt hpos)
  · have hs1 := sortByTotalDesc_sorted (cropTotals t si r0 n)
    have hs2 : ((sortByTotalDesc (cropTotals t si r0 n)).take m).Sorted
        (fun a b => b.2 ≤ a.2) :=
      hs1.sublist (List.take_sublist _ _)
    rw [List.Sorted, List.pairwise_map]
    exact hs2.imp (fun h => round2_mono h)
  · rw [List.length_map, List.length_take,
      (sortByTotalDesc_perm (cropTotals t si r0 n)).length_eq]

/-- Crop table for the C10 witness: two crops with whole-number totals. -/
def tOkC10 : Table :=
  ⟨["State", "Wheat-2015-16", "Rice-2015-16"],
   [[.str "Punjab", .num 10, .num 7]]⟩

/-- Witness for `topCrops_ok_invariants` on a concrete successful query. -/
theorem topCrops_ok_invariants_witness :
    findCropStateCol tOkC10.cols = some 0 ∧
    matchingRows tOkC10 0 "Punjab" = [[Cell.str "Punjab", Cell.num 10, Cell.num 7]] ∧
    topCropsInState tOkC10 "Punjab" 5 1 =
      CropResult.ok "Punjab" 1 [("Wheat", 10), ("Rice", 7)] ∧
    ((∀ p ∈ cropTotals tOkC10 0 [Cell.str "Punjab", Cell.num 10, Cell.num 7] 1, 0 < p.2) ∧
      ((cropTotals tOkC10 0 [Cell.str "Punjab", Cell.num 10, Cell.num 7] 1).map Prod.fst).Nodup ∧
      (∀ p ∈ [(("Wheat" : String), (10 : ℚ)), ("Rice", 7)], 0 ≤ p.2) ∧
      ([(("Wheat" : String), (10 : ℚ)), ("Rice", 7)]).Sorted (fun a b => b.2 ≤ a.2) ∧
      ([(("Wheat" : String), (10 : ℚ)), ("Rice", 7)]).length =
        min 5 (cropTotals tOkC10 0 [Cell.str "Punjab", Cell.num 10, Cell.num 7] 1).length) :=
  ⟨by decide, by decide, by decide,
   topCrops_ok_invariants tOkC10 "Punjab" 5 1 0
     [Cell.str "Punjab", Cell.num 10, Cell.num 7] [] "Punjab" 1
     [("Wheat", 10), ("Rice", 7)] (by decide) (by decide) (by decide)⟩

/-- C9: when one or more rows match the requested state, `top_crops_in_state`
aggregates `df_state[col].iloc[0]` — the first matching row only — so the
result is identical to the result on a table holding just that first matching
row; further matching rows have no effect. -/
theorem topCrops_uses_first_matching_row (t : Table) (s : String) (m n si : ℕ)
    (r0 : List Cell) (rs : List (List Cell))
    (hsi : findCropStateCol t.cols = some si)
    (hm : matchingRows t si s = r0 :: rs) :
    topCropsInState t s m n = topCropsInState ⟨t.cols, [r0]⟩ s m n := by
  have hcols : t.cols ≠ [] := by
    intro h
    rw [h] at hsi
    simp [findCropStateCol] at hsi
  have hrows : t.rows ≠ [] := by
    intro h
    unfold matchingRows at hm
    rw [h] at hm
    simp at hm
  have hpred : stateMatches (cellAt r0 si) s = true := by
    have hm0 : r0 ∈ matchingRows t si s := by
      rw [hm]
      exact List.mem_cons_self _ _
    exact (List.mem_filter.mp hm0).2
  have he1 : t.isEmpty = false := by
    unfold Table.isEmpty
    simp [List.isEmpty_iff, hrows, hcols]
  have he2 : (Table.mk t.cols [r0]).isEmpty = false := by
    unfold Table.isEmpty
    simp [List.isEmpty_iff, hcols]
  have hsi2 : findCropStateCol (Table.mk t.cols [r0]).cols = some si := hsi
  have hm2 : matchingRows ⟨t.cols, [r0]⟩ si s = [r0] := by
    unfold matchingRows
    simp [List.filter_cons, hpred]
  unfold topCropsInState
  simp only [he1, he2, Bool.false_eq_true, if_false, hsi, hsi2, hm, hm2]
  rfl

/-- Crop table for the C9 witness: two rows match Punjab with different
values; only the first is aggregated. -/
def tTwoRowsC9 : Table :=
  ⟨["State", "Wheat-2015-16"],
   [[.str "Punjab", .num 10], [.str "Punjab", .num 999]]⟩

/-- Witness for `topCrops_uses_first_matching_row` on a table with two
matching rows: the 999 in the second matching row is ignored. -/
theorem topCrops_uses_first_matching_row_witness :
    findCropStateCol tTwoRowsC9.cols = some 0 ∧
    matchingRows tTwoRowsC9 0 "Punjab" =
      [[Cell.str "Punjab", Cell.num 10], [Cell.str "Punjab", Cell.num 999]] ∧
    topCropsInState tTwoRowsC9 "Punjab" 3 1 =
      topCropsInState ⟨tTwoRowsC9.cols, [[Cell.str "Punjab", Cell.num 10]]⟩ "Punjab" 3 1 :=
  ⟨by decide, by decide,
   topCrops_uses_first_matching_row tTwoRowsC9 "Punjab" 3 1 0
     [Cell.str "Punjab", Cell.num 10] [[Cell.str "Punjab", Cell.num 999]]
     (by decide) (by decide)⟩

/-- Every straight-line result value is either the successful record or
carries one of the code's error messages. -/
theorem queries_always_return_structured_result (t : Table) (sx sy : String)
    (n : ℕ) (t2 : Table) (s : String) (m n2 : ℕ) :
    ((compareAverageRainfall t sx sy n).isOk = true ∨
      (compareAverageRainfall t sx sy n).errText.isSome = true) ∧
    ((topCropsInState t2 s m n2).isOk = true ∨
      (topCropsInState t2 s m n2).errText.isSome = true) := by
  constructor
  · cases h : compareAverageRainfall t sx sy n <;>
      simp [RainResult.isOk, RainResult.errText]
  · cases h : topCropsInState t2 s m n2 <;>
      simp [CropResult.isOk, CropResult.errText]

/-- Rainfall table whose state column is numeric dtype (read_csv infers
int64 for a column of plain numbers and the loader never coerces it). -/
def tNumStateC3 : Table :=
  ⟨["State", "Year", "Rainfall"],
   [[.num 1, .num 2014, .num 100], [.num 2, .num 2014, .num 200]]⟩

/-- Rainfall table whose rainfall column resolves via "annual" and holds
strings: the loader coerces only year/rain-named columns, so it stays
object dtype. -/
def tAnnualStrC3 : Table :=
  ⟨["State", "Year", "Annual"],
   [[.str "Kerala", .num 2014, .str "high"],
    [.str "Goa", .num 2014, .str "low"]]⟩

/-- Crop table whose state column is numeric dtype. -/
def tNumStateCropC3 : Table :=
  ⟨["State", "Wheat-2015-16"], [[.num 1, .num 100]]⟩

/-- C3 counterexample.  The queries can raise to the caller: a numeric-dtype
state column makes `.str.lower()` raise AttributeError in both queries, and
an uncoerced object-dtype "annual" rainfall column makes `Series.mean()`
raise TypeError — none of these failures is returned as an error field. -/
theorem queries_raise_on_numeric_dtype_columns :
    compareAverageRainfallPy tNumStateC3 "1" "2" 5 =
      Except.error "AttributeError" ∧
    compareAverageRainfallPy tAnnualStrC3 "Kerala" "Goa" 5 =
      Except.error "TypeError" ∧
    topCropsInStatePy tNumStateCropC3 "1" 3 5 =
      Except.error "AttributeError" := by decide

/-- C3 (amended): for every pair of state-name strings and every
`last_n_years`, provided the resolved state columns are object dtype
(contain a string value) and the resolved rainfall column is numeric dtype
(no string value), `compare_average_rainfall` and `top_crops_in_state` raise
no exception and return the structured QueryResult of the straight-line
code, every failure mode of which appears as an `error` field; without that
dtype proviso the `.str` accessor (lines 172/233) or `Series.mean()`
(line 189) can raise. -/
theorem queries_structured_unless_dtype_mismatch
    (t : Table) (sx sy : String) (n : ℕ) (si yi ri : ℕ)
    (hsi : findStateColR t.cols = some si)
    (hyi : findYearCol t.cols = some yi)
    (hri : findRainCol t.cols = some ri)
    (hobj : isObjectDtype (colCells t si) = true)
    (hnum : isObjectDtype (colCells t ri) = false)
    (t2 : Table) (s : String) (m n2 : ℕ) (si2 : ℕ)
    (hsi2 : findCropStateCol t2.cols = some si2)
    (hobj2 : isObjectDtype (colCells t2 si2) = true) :
    compareAverageRainfallPy t sx sy n =
      Except.ok (compareAverageRainfall t sx sy n) ∧
    ((compareAverageRainfall t sx sy n).isOk = true ∨
      (compareAverageRainfall t sx sy n).errText.isSome = true) ∧
    topCropsInStatePy t2 s m n2 = Except.ok (topCropsInState t2 s m n2) ∧
    ((topCropsInState t2 s m n2).isOk = true ∨
      (topCropsInState t2 s m n2).errText.isSome = true) := by
  refine ⟨?_, (queries_always_return_structured_result t sx sy n t2 s m n2).1,
    ?_, (queries_always_return_structured_result t sx sy n t2 s m n2).2⟩
  · unfold compareAverageRainfallPy compareAverageRainfall
    cases hE : t.isEmpty
    · simp only [hE, Bool.false_eq_true, if_false, hsi, hyi, hri]
      cases hv : ((colCells t yi).filterMap Cell.toNum).isEmpty
      · simp only [hv, Bool.false_eq_true, if_false, hobj, Bool.not_true,
          hnum]
        cases hX : (selectStateRows t si yi sx
            (recentYears ((colCells t yi).filterMap Cell.toNum) n)).isEmpty <;>
          cases hY : (selectStateRows t si yi sy
            (recentYears ((colCells t yi).filterMap Cell.toNum) n)).isEmpty <;>
          simp [hX, hY]
      · simp [hv]
    · simp [hE]
  · unfold topCropsInStatePy topCropsInState
    cases hE2 : t2.isEmpty
    · simp only [hE2, Bool.false_eq_true, if_false, hsi2, hobj2, Bool.not_true]
      cases hMR : matchingRows t2 si2 s with
      | nil => simp [hMR]
      | cons r0 rs =>
        simp only [hMR]
        cases hT : (cropTotals t2 si2 r0 n2).isEmpty <;> simp [hT]
    · simp [hE2]

/-- Rainfall table for the C3 witness: object-dtype state column, numeric
rainfall column. -/
def tOkRainC3 : Table :=
  ⟨["State", "Year", "Rainfall"], [[.str "Kerala", .num 2014, .num 100]]⟩

/-- Crop table for the C3 witness: object-dtype state column. -/
def tOkCropC3 : Table :=
  ⟨["State", "Wheat-2015-16"], [[.str "Punjab", .num 5]]⟩

/-- Witness for `queries_structured_unless_dtype_mismatch` on concrete
benign-dtype tables. -/
theorem queries_structured_unless_dtype_mismatch_witness :
    (findStateColR tOkRainC3.cols = some 0 ∧
      findYearCol tOkRainC3.cols = some 1 ∧
      findRainCol tOkRainC3.cols = some 2 ∧
      isObjectDtype (colCells tOkRainC3 0) = true ∧
      isObjectDtype (colCells tOkRainC3 2) = false ∧
      findCropStateCol tOkCropC3.cols = some 0 ∧
      isObjectDtype (colCells tOkCropC3 0) = true) ∧
    (compareAverageRainfallPy tOkRainC3 "Kerala" "X" 5 =
        Except.ok (compareAverageRainfall tOkRainC3 "Kerala" "X" 5) ∧
      ((compareAverageRainfall tOkRainC3 "Kerala" "X" 5).isOk = true ∨
        (compareAverageRainfall tOkRainC3 "Kerala" "X" 5).errText.isSome = true) ∧
      topCropsInStatePy tOkCropC3 "Punjab" 3 5 =
        Except.ok (topCropsInState tOkCropC3 "Punjab" 3 5) ∧
      ((topCropsInState tOkCropC3 "Punjab" 3 5).isOk = true ∨
        (topCropsInState tOkCropC3 "Punjab" 3 5).errText.isSome = true)) :=
  ⟨⟨by decide, by decide, by decide, by decide, by decide, by decide, by decide⟩,
   queries_structured_unless_dtype_mismatch tOkRainC3 "Kerala" "X" 5 0 1 2
     (by decide) (by decide) (by decide) (by decide) (by decide)
     tOkCropC3 "Punjab" 3 5 0 (by decide) (by decide)⟩

/-- C7: state matching is invariant under case changes and leading/trailing
whitespace of the query string — two queries whose lower-cased trimmed forms
agree select exactly the same rows and hence yield the same average. -/
theorem stateMatch_case_whitespace_invariant (t : Table) (si yi ri : ℕ)
    (ys : List ℚ) (s1 s2 : String) (h : lowerTrim s1 = lowerTrim s2) :
    selectStateRows t si yi s1 ys = selectStateRows t si yi s2 ys ∧
    ratMean (rainValues (selectStateRows t si yi s1 ys) ri) =
      ratMean (rainValues (selectStateRows t si yi s2 ys) ri) := by
  have hsm : ∀ c : Cell, stateMatches c s1 = stateMatches c s2 := by
    intro c
    cases c <;> simp [stateMatches, h]
  have h1 : selectStateRows t si yi s1 ys = selectStateRows t si yi s2 ys := by
    unfold selectStateRows
    exact List.filter_congr (fun r _ => by rw [hsm])
  exact ⟨h1, by rw [h1]⟩

/-- Rainfall table for the C7 witness. -/
def tRainC7 : Table :=
  ⟨["State Name", "Year", "Annual Rainfall"],
   [[.str "Maharashtra", .num 2014, .num 100],
    [.str " KERALA ", .num 2014, .num 300],
    [.str "Maharashtra", .num 2013, .num 50]]⟩

/-- Witness for `stateMatch_case_whitespace_invariant`: "maharashtra " and
"Maharashtra" select the same rows and the same average. -/
theorem stateMatch_case_whitespace_invariant_witness :
    lowerTrim "maharashtra " = lowerTrim "Maharashtra" ∧
    (selectStateRows tRainC7 0 1 "maharashtra " [2014] =
        selectStateRows tRainC7 0 1 "Maharashtra" [2014] ∧
      ratMean (rainValues (selectStateRows tRainC7 0 1 "maharashtra " [2014]) 2) =
        ratMean (rainValues (selectStateRows tRainC7 0 1 "Maharashtra" [2014]) 2)) :=
  ⟨by decide,
   stateMatch_case_whitespace_invariant tRainC7 0 1 2 [2014]
     "maharashtra " "Maharashtra" (by decide)⟩

/-- Crop table with 21 columns, none of which is a state column. -/
def tManyColsC5 : Table :=
  ⟨["c01", "c02", "c03", "c04", "c05", "c06", "c07", "c08", "c09", "c10",
    "c11", "c12", "c13", "c14", "c15", "c16", "c17", "c18", "c19", "c20",
    "c21"],
   [[.na]]⟩

/-- C5 counterexample.  The crop query's missing-state-column diagnostic is
truncated to the first 20 column names, so on a 21-column table it does not
list exactly the columns present. -/
theorem cropQuery_truncates_available_columns :
    topCropsInState tManyColsC5 "Punjab" 3 5 =
      CropResult.errNoStateColumn
        ["c01", "c02", "c03", "c04", "c05", "c06", "c07", "c08", "c09", "c10",
         "c11", "c12", "c13", "c14", "c15", "c16", "c17", "c18", "c19", "c20"] ∧
    tManyColsC5.cols.length = 21 := by decide

/-- C5 (amended): on a non-empty table with an unresolved role column, the
rainfall query's error lists exactly the columns present, while the crop
query's error lists only the first 20 column names (hence exactly the columns
present only when the table has at most 20 columns). -/
theorem missing_column_diagnostics (t : Table) (sx sy : String) (n : ℕ)
    (h : t.isEmpty = false)
    (hmiss : findStateColR t.cols = none ∨ findYearCol t.cols = none ∨
      findRainCol t.cols = none)
    (t2 : Table) (s : String) (m n2 : ℕ)
    (h2 : t2.isEmpty = false)
    (hmiss2 : findCropStateCol t2.cols = none) :
    compareAverageRainfall t sx sy n = RainResult.errMissingColumns t.cols ∧
    topCropsInState t2 s m n2 = CropResult.errNoStateColumn (t2.cols.take 20) := by
  constructor
  · unfold compareAverageRainfall
    simp only [h, Bool.false_eq_true, if_false]
    rcases hA : findStateColR t.cols with _ | a <;>
      rcases hB : findYearCol t.cols with _ | b <;>
      rcases hC : findRainCol t.cols with _ | c <;>
      simp_all
  · unfold topCropsInState
    simp only [h2, Bool.false_eq_true, if_false, hmiss2]

/-- Rainfall table with no rainfall-like column. -/
def tNoRainColC5 : Table := ⟨["State", "Year"], [[.str "A", .num 2010]]⟩

/-- Crop table with a single non-state column. -/
def tNoStateColC5 : Table := ⟨["colA"], [[.na]]⟩

/-- Witness for `missing_column_diagnostics` on concrete tables. -/
theorem missing_column_diagnostics_witness :
    tNoRainColC5.isEmpty = false ∧
    findRainCol tNoRainColC5.cols = none ∧
    tNoStateColC5.isEmpty = false ∧
    findCropStateCol tNoStateColC5.cols = none ∧
    (compareAverageRainfall tNoRainColC5 "A" "B" 5 =
        RainResult.errMissingColumns tNoRainColC5.cols ∧
      topCropsInState tNoStateColC5 "P" 3 5 =
        CropResult.errNoStateColumn (tNoStateColC5.cols.take 20)) :=
  ⟨by decide, by decide, by decide, by decide,
   missing_column_diagnostics tNoRainColC5 "A" "B" 5 (by decide)
     (Or.inr (Or.inr (by decide))) tNoStateColC5 "P" 3 5 (by decide) (by decide)⟩

/-- The per-state sample is nonempty on a table with at least one row. -/
theorem sample_ne_nil (t : Table) (si : ℕ) (hrows : t.rows ≠ []) :
    (uniqueFirst (colCells t si)).take 30 ≠ [] := by
  obtain ⟨r, rest, hr⟩ : ∃ r rest, t.rows = r :: rest := by
    cases ht : t.rows with
    | nil => exact absurd ht hrows
    | cons a l => exact ⟨a, l, rfl⟩
  unfold colCells uniqueFirst
  rw [hr]
  simp [uniqueFirstAux]

/-- C6: on a non-empty crop table with a resolved state column, a query for a
state matching zero rows fails with the state-not-found error carrying a
nonempty sample of at most 30 states, while a query whose state matches but
whose aggregation is empty fails with the distinct no-valid-production error;
the two error results are never equal. -/
theorem cropQuery_state_error_kinds (t : Table) (s : String) (m n si : ℕ)
    (h : t.isEmpty = false) (hsi : findCropStateCol t.cols = some si)
    (hnone : matchingRows t si s = [])
    (t2 : Table) (s2 : String) (m2 n2 si2 : ℕ)
    (r0 : List Cell) (rs : List (List Cell))
    (h2 : t2.isEmpty = false) (hsi2 : findCropStateCol t2.cols = some si2)
    (hsome : matchingRows t2 si2 s2 = r0 :: rs)
    (htot : cropTotals t2 si2 r0 n2 = []) :
    topCropsInState t s m n =
      CropResult.errStateNotFound s ((uniqueFirst (colCells t si)).take 30) ∧
    (uniqueFirst (colCells t si)).take 30 ≠ [] ∧
    ((uniqueFirst (colCells t si)).take 30).length ≤ 30 ∧
    topCropsInState t2 s2 m2 n2 = CropResult.errNoValidProduction s2 ∧
    topCropsInState t s m n ≠ topCropsInState t2 s2 m2 n2 := by
  have hrows : t.rows ≠ [] := by
    intro hr
    unfold Table.isEmpty at h
    rw [hr] at h
    simp at h
  have hfirst : topCropsInState t s m n =
      CropResult.errStateNotFound s ((uniqueFirst (colCells t si)).take 30) := by
    unfold topCropsInState
    simp only [h, Bool.false_eq_true, if_false, hsi, hnone]
  have hsecond : topCropsInState t2 s2 m2 n2 =
      CropResult.errNoValidProduction s2 := by
    unfold topCropsInState
    simp only [h2, Bool.false_eq_true, if_false, hsi2, hsome, htot,
      List.isEmpty_nil, if_true]
  refine ⟨hfirst, sample_ne_nil t si hrows, ?_, hsecond, ?_⟩
  · have := List.length_take 30 (uniqueFirst (colCells t si))
    omega
  · rw [hfirst, hsecond]
    simp

/-- Crop table for the C6 witness, first half: no row matches Punjab. -/
def tKeralaC6 : Table :=
  ⟨["State", "Wheat-2015-16"], [[.str "Kerala", .num 5]]⟩

/-- Crop table for the C6 witness, second half: Punjab matches but its only
value is missing, so no totals survive. -/
def tSparseC6 : Table :=
  ⟨["State", "Wheat-2015-16"], [[.str "Punjab", .na]]⟩

/-- Witness for `cropQuery_state_error_kinds` on concrete tables. -/
theorem cropQuery_state_error_kinds_witness :
    tKeralaC6.isEmpty = false ∧
    findCropStateCol tKeralaC6.cols = some 0 ∧
    matchingRows tKeralaC6 0 "Punjab" = [] ∧
    tSparseC6.isEmpty = false ∧
    findCropStateCol tSparseC6.cols = some 0 ∧
    matchingRows tSparseC6 0 "Punjab" = [[Cell.str "Punjab", Cell.na]] ∧
    cropTotals tSparseC6 0 [Cell.str "Punjab", Cell.na] 1 = [] ∧
    (topCropsInState tKeralaC6 "Punjab" 3 1 =
        CropResult.errStateNotFound "Punjab"
          ((uniqueFirst (colCells tKeralaC6 0)).take 30) ∧
      (uniqueFirst (colCells tKeralaC6 0)).take 30 ≠ [] ∧
      ((uniqueFirst (colCells tKeralaC6 0)).take 30).length ≤ 30 ∧
      topCropsInState tSparseC6 "Punjab" 3 1 =
        CropResult.errNoValidProduction "Punjab" ∧
      topCropsInState tKeralaC6 "Punjab" 3 1 ≠
        topCropsInState tSparseC6 "Punjab" 3 1) :=
  ⟨by decide, by decide, by decide, by decide, by decide, by decide, by decide,
   cropQuery_state_error_kinds tKeralaC6 "Punjab" 3 1 0 (by decide) (by decide)
     (by decide) tSparseC6 "Punjab" 3 1 0 [Cell.str "Punjab", Cell.na] []
     (by decide) (by decide) (by decide) (by decide)⟩

/-- The sorted distinct-year list has as many entries as there are distinct
years. -/
theorem sortedUnique_length (ys : List ℚ) :
    (sortedUnique ys).length = ys.dedup.length :=
  List.length_insertionSort _ _

/-- The sorted distinct-year list has no duplicates. -/
theorem sortedUnique_nodup (ys : List ℚ) : (sortedUnique ys).Nodup :=
  (List.perm_insertionSort _ _).nodup_iff.mpr ys.nodup_dedup

/-- The sorted distinct-year list is strictly increasing. -/
theorem sortedUnique_sorted (ys : List ℚ) : (sortedUnique ys).Sorted (· < ·) :=
  (List.sorted_insertionSort _ _).lt_of_le (sortedUnique_nodup ys)

/-- Membership in the sorted distinct-year list. -/
theorem sortedUnique_mem (ys : List ℚ) (x : ℚ) :
    x ∈ sortedUnique ys ↔ x ∈ ys :=
  Iff.trans (List.perm_insertionSort _ _).mem_iff List.mem_dedup

/-- C4: for every list of year values and every `n ≥ 1` the recency selection
`sorted(valid_years.unique())[-n:]` has length `min n (number of distinct
years)`, is sorted strictly ascending, consists of year values present in the
data, dominates every distinct year left out (it is the n largest), and
returns all distinct years when fewer than `n` exist — while a table whose
year column holds no numeric value at all makes `compare_average_rainfall`
fail with the no-year-data error. -/
theorem recency_selection_spec (ys : List ℚ) (n : ℕ) (hn : 1 ≤ n)
    (t : Table) (sx sy : String) (si yi ri : ℕ)
    (h1 : t.isEmpty = false)
    (h2 : findStateColR t.cols = some si)
    (h3 : findYearCol t.cols = some yi)
    (h4 : findRainCol t.cols = some ri)
    (h5 : (colCells t yi).filterMap Cell.toNum = []) :
    (recentYears ys n).length = min n ys.dedup.length ∧
    (recentYears ys n).Sorted (· < ·) ∧
    (∀ x ∈ recentYears ys n, x ∈ ys) ∧
    (∀ x ∈ ys, x ∉ recentYears ys n → ∀ z ∈ recentYears ys n, x < z) ∧
    (ys.dedup.length ≤ n → recentYears ys n = sortedUnique ys) ∧
    compareAverageRainfall t sx sy n = RainResult.errNoYearData := by
  have hzero : n ≠ 0 := by omega
  have hL : recentYears ys n =
      (sortedUnique ys).drop ((sortedUnique ys).length - n) := by
    unfold recentYears lastN
    simp [hzero]
  refine ⟨?_, ?_, ?_, ?_, ?_, ?_⟩
  · rw [hL, List.length_drop, sortedUnique_length]
    omega
  · rw [hL]
    exact List.Pairwise.sublist (List.drop_sublist _ _) (sortedUnique_sorted ys)
  · intro x hx
    rw [hL] at hx
    exact (sortedUnique_mem ys x).mp (List.drop_subset _ _ hx)
  · intro x hx hnotin z hz
    rw [hL] at hnotin hz
    have hxL : x ∈ sortedUnique ys := (sortedUnique_mem ys x).mpr hx
    have hsplit := List.take_append_drop
      ((sortedUnique ys).length - n) (sortedUnique ys)
    have hxtake : x ∈ (sortedUnique ys).take ((sortedUnique ys).length - n) := by
      rw [← hsplit] at hxL
      rcases List.mem_append.mp hxL with hcase | hcase
      · exact hcase
      · exact absurd hcase hnotin
    have hsorted := sortedUnique_sorted ys
    rw [← hsplit] at hsorted
    exact (List.pairwise_append.mp hsorted).2.2 x hxtake z hz
  · intro hle
    rw [hL]
    have hz2 : (sortedUnique ys).length - n = 0 := by
      rw [sortedUnique_length]
      omega
    rw [hz2, List.drop_zero]
  · unfold compareAverageRainfall
    simp only [h1, Bool.false_eq_true, if_false, h2, h3, h4, h5,
      List.isEmpty_nil, if_true]

/-- Rainfall table for the C4 witness: role columns resolve but the year
column holds no numeric value. -/
def tNoYearsC4 : Table :=
  ⟨["State", "Year", "Rainfall"], [[.str "A", .na, .na]]⟩

/-- Witness for `recency_selection_spec` at the year list
[2010, 2012, 2011, 2012] with n = 2 and a table with an all-NaN year column. -/
theorem recency_selection_spec_witness :
    (1 ≤ 2 ∧
      tNoYearsC4.isEmpty = false ∧
      findStateColR tNoYearsC4.cols = some 0 ∧
      findYearCol tNoYearsC4.cols = some 1 ∧
      findRainCol tNoYearsC4.cols = some 2 ∧
      (colCells tNoYearsC4 1).filterMap Cell.toNum = []) ∧
    ((recentYears [2010, 2012, 2011, 2012] 2).length =
        min 2 ([(2010 : ℚ), 2012, 2011, 2012].dedup).length ∧
      (recentYears [2010, 2012, 2011, 2012] 2).Sorted (· < ·) ∧
      (∀ x ∈ recentYears [2010, 2012, 2011, 2012] 2,
        x ∈ [(2010 : ℚ), 2012, 2011, 2012]) ∧
      (∀ x ∈ [(2010 : ℚ), 2012, 2011, 2012],
        x ∉ recentYears [2010, 2012, 2011, 2012] 2 →
          ∀ z ∈ recentYears [2010, 2012, 2011, 2012] 2, x < z) ∧
      (([(2010 : ℚ), 2012, 2011, 2012].dedup).length ≤ 2 →
        recentYears [2010, 2012, 2011, 2012] 2 =
          sortedUnique [2010, 2012, 2011, 2012]) ∧
      compareAverageRainfall tNoYearsC4 "A" "B" 2 = RainResult.errNoYearData) :=
  ⟨⟨by decide, by decide, by decide, by decide, by decide, by decide⟩,
   recency_selection_spec [2010, 2012, 2011, 2012] 2 (by decide)
     tNoYearsC4 "A" "B" 0 1 2 (by decide) (by decide) (by decide) (by decide)
     (by decide)⟩

end Samarth
